import Mathlib

/-!
Verification of the dumpster repository (netfilter log watcher / firewall policy daemon).

The development shallowly embeds the code of `src/dumpster/nft_line.py`,
`src/dumpster/nft_log_reader.py`, `src/dumpster/dumpster_db.py`,
`src/dumpster/dumpster_rules.py` and `src/dumpster/dumpster.py`.
Python strings are modelled as `List Char` (ASCII log lines), machine integers as
`Int`/`Nat` (Python integers are unbounded), fallible code as `Except`,
and SQLite tables as in-memory lists keyed like the schema's primary keys.
External library calls that the repository does not implement
(`datetime.strptime(...).timestamp()`, `hashlib.sha256`) are passed in as
explicit function parameters, so every theorem quantifies over them.
-/

namespace Dumpster

/-! ## Python string primitives

`isPySpace` is the ASCII whitespace set of Python's `str.strip` / regex `\s`
(unicode whitespace does not occur in netfilter log lines). -/

def isPySpace (c : Char) : Bool :=
  c = ' ' || c = '\t' || c = '\n' || c = '\x0d' || c = '\x0b' || c = '\x0c'

/-- Python `str.strip()` on a character list: drop leading and trailing whitespace. -/
def pyStripList (l : List Char) : List Char :=
  ((l.dropWhile isPySpace).reverse.dropWhile isPySpace).reverse

/-- Python `str.strip()` on a `String`. -/
def pyStrip (s : String) : String :=
  ⟨pyStripList s.toList⟩

/-- Does `s` start with `pat`? (Python `str.startswith`, regex literal match.) -/
def startsWithPat : List Char → List Char → Bool
  | [], _ => true
  | _ :: _, [] => false
  | p :: ps, c :: cs => p = c && startsWithPat ps cs

/-- Python `pat in s` substring containment. -/
def containsPat (pat : List Char) : List Char → Bool
  | [] => startsWithPat pat []
  | c :: rest => startsWithPat pat (c :: rest) || containsPat pat rest

/-- The part of `s` before the first occurrence of `pat`
(`s.split(pat)[0]`; all of `s` when `pat` does not occur). -/
def takeBefore (pat : List Char) : List Char → List Char
  | [] => []
  | c :: rest => if startsWithPat pat (c :: rest) then [] else c :: takeBefore pat rest

/-- The part of `s` after the first occurrence of `pat`, if any
(used for Python tuple-unpacking of `str.split`). -/
def afterFirst (pat : List Char) : List Char → Option (List Char)
  | [] => if startsWithPat pat [] then some [] else none
  | c :: rest =>
    if startsWithPat pat (c :: rest) then some ((c :: rest).drop pat.length)
    else afterFirst pat rest

/-- Fuelled worker for `removeAll` (Python `s.replace(pat, "")`,
left-to-right non-overlapping; `replace` with an empty pattern and empty
replacement returns the string unchanged). -/
def removeAllF (pat : List Char) : Nat → List Char → List Char
  | 0, s => s
  | _ + 1, [] => []
  | fuel + 1, c :: rest =>
    if pat = [] then c :: rest
    else if startsWithPat pat (c :: rest) then removeAllF pat fuel ((c :: rest).drop pat.length)
    else c :: removeAllF pat fuel rest

/-- Python `s.replace(pat, "")`. -/
def removeAll (pat s : List Char) : List Char :=
  removeAllF pat s.length s

/-- Last element of Python `s.split(" ")`: the suffix after the last `' '`. -/
def lastTokenSpace (s : List Char) : List Char :=
  (s.reverse.takeWhile (fun c => decide (c ≠ ' '))).reverse

/-! ## Number parsing (Python `int(v)` and `int(v, 16)`) -/

def isDigit (c : Char) : Bool := '0' ≤ c && c ≤ '9'

def isHexDigit (c : Char) : Bool :=
  isDigit c || ('a' ≤ c && c ≤ 'f') || ('A' ≤ c && c ≤ 'F')

def digitsValAux : Nat → List Char → Option Nat
  | acc, [] => some acc
  | acc, c :: r => if isDigit c then digitsValAux (acc * 10 + (c.toNat - Char.toNat '0')) r else none

/-- Value of a non-empty all-decimal-digit run, else `none`. -/
def digitsVal? : List Char → Option Nat
  | [] => none
  | c :: r => digitsValAux 0 (c :: r)

/-- Python `int(v)` on a stripped token: optional sign then decimal digits. -/
def decInt? : List Char → Option Int
  | '-' :: rest => (digitsVal? rest).map (fun n => -(n : Int))
  | '+' :: rest => (digitsVal? rest).map (fun n => (n : Int))
  | l => (digitsVal? l).map (fun n => (n : Int))

def hexDigitVal (c : Char) : Nat :=
  if isDigit c then c.toNat - Char.toNat '0'
  else if 'a' ≤ c && c ≤ 'f' then c.toNat - Char.toNat 'a' + 10
  else c.toNat - Char.toNat 'A' + 10

def hexValAux : Nat → List Char → Option Nat
  | acc, [] => some acc
  | acc, c :: r => if isHexDigit c then hexValAux (acc * 16 + hexDigitVal c) r else none

def hexDigitsVal? : List Char → Option Nat
  | [] => none
  | c :: r => hexValAux 0 (c :: r)

/-- `nft_line.get_parameters` value conversion for integer-typed parameters:
a value starting with the two characters `0x` goes through `int(match, 16)`,
anything else through the dataclass's `int` coercion; `none` is a `ValueError`. -/
def pyIntVal? (v : List Char) : Option Int :=
  if startsWithPat ('0' :: 'x' :: []) v then (hexDigitsVal? (v.drop 2)).map (fun n => (n : Int))
  else decInt? v

/-! ## Regex fragments used by `nft_line.py` -/

/-- The character class `[\s|$]` of `get_flags`: note this is a literal class,
so a flag at the very end of the line (with nothing after it) does not match. -/
def classAfterFlag (c : Char) : Bool := isPySpace c || c = '|' || c = '$'

/-- `re.search(r"\s%s[\s|$]" % flag, line)` of `nft_line.get_flags`. -/
def findFlag (flag : List Char) : List Char → Bool
  | [] => false
  | c :: rest =>
    (isPySpace c && startsWithPat flag rest &&
      (match rest.drop flag.length with
       | d :: _ => classAfterFlag d
       | [] => false)) || findFlag flag rest

/-- `re.search(r" %s=([\S]+)\s?" % param, line).group(1)` of
`nft_line.get_parameters`: first position where a space, the parameter name and
`=` are followed by at least one non-whitespace character; the capture is the
maximal non-whitespace run. -/
def findParam (name : List Char) : List Char → Option (List Char)
  | [] => none
  | c :: rest =>
    if c = ' ' && startsWithPat (name ++ ('=' :: [])) rest then
      match (rest.drop (name.length + 1)).takeWhile (fun d => !(isPySpace d)) with
      | [] => findParam name rest
      | v :: vs => some (v :: vs)
    else findParam name rest

/-- One attempt of the MAC regex `([a-fA-F0-9]{2}(?:\:[a-fA-F0-9]{2}){5})` at the
head of the list: six hex pairs joined by colons (17 characters). Returns the
match and the remainder of the string. -/
def matchMac17 : List Char → Option (List Char × List Char)
  | a1 :: a2 :: s1 :: a3 :: a4 :: s2 :: a5 :: a6 :: s3 :: a7 :: a8 :: s4 :: a9 :: a10 :: s5 :: a11 :: a12 :: rest =>
    if isHexDigit a1 && isHexDigit a2 && s1 = ':' && isHexDigit a3 && isHexDigit a4 && s2 = ':' &&
       isHexDigit a5 && isHexDigit a6 && s3 = ':' && isHexDigit a7 && isHexDigit a8 && s4 = ':' &&
       isHexDigit a9 && isHexDigit a10 && s5 = ':' && isHexDigit a11 && isHexDigit a12 then
      some (a1 :: a2 :: s1 :: a3 :: a4 :: s2 :: a5 :: a6 :: s3 :: a7 :: a8 :: s4 :: a9 :: a10 :: s5 :: a11 :: a12 :: [], rest)
    else none
  | _ => none

/-- `re.findall` for the MAC regex: scan left to right, non-overlapping matches,
resuming after each match. Fuel-recursive (the fuel is the string length, which
bounds the number of scan steps since every step consumes at least one char). -/
def findallMacF : Nat → List Char → List (List Char)
  | 0, _ => []
  | _ + 1, [] => []
  | fuel + 1, c :: rest =>
    match matchMac17 (c :: rest) with
    | some (m, after) => m :: findallMacF fuel after
    | none => findallMacF fuel rest

def findallMac (s : List Char) : List (List Char) := findallMacF s.length s

/-! ## Parse failures

`BadNFTLineError(line, message)` is modelled by `ParseFail.badLine` carrying the
(stripped) line and the message encoded as a `BadKind`. The `ValueError`s that
`nft_line.py` lets escape (unparseable timestamp via `datetime.strptime`,
unparseable MAC field via `MacAddress.from_logline`, bad integer literals) are
modelled by `ParseFail.valueError`; `watch_log` catches only `BadNFTLineError`. -/

inductive BadKind where
  | missingIN
  | missingKernelMarker
  | missingRequiredParameter (param : String)
  | selfLoop
deriving DecidableEq, Repr

inductive ParseFail where
  | badLine (line : String) (kind : BadKind)
  | valueError
deriving DecidableEq, Repr

inductive LogType where
  | FORWARD
  | INBOUND
  | OUTBOUND
deriving DecidableEq, Repr

/-- `LogType.value` of the Python enum (stored in the `direction` column). -/
def LogType.value : LogType → String
  | .FORWARD => "forward"
  | .INBOUND => "inbound"
  | .OUTBOUND => "outbound"

/-- `LogType.name` of the Python enum (compared against `scan_directions`). -/
def LogType.pyName : LogType → String
  | .FORWARD => "FORWARD"
  | .INBOUND => "INBOUND"
  | .OUTBOUND => "OUTBOUND"

/-- The validated dataclass `NetFilterLogLine` of `nft_line.py`: one parsed
netfilter log record. Optional fields default to `none` (Python `None`),
flag booleans default to false; `L3_LEN` and `L4_LEN` are skipped by the
parameter loop (`"_LEN" in param`) and therefore always keep their default. -/
structure NetFilterLogLine where
  line : String
  log_type : LogType
  log_statement : String
  hostname : String
  timestamp : Int
  src_mac : Option String
  dst_mac : Option String
  mac : Option String
  ACK : Bool
  FIN : Bool
  SYN : Bool
  RST : Bool
  PSH : Bool
  URG : Bool
  ECE : Bool
  ECT : Bool
  CWR : Bool
  CE : Bool
  DF : Bool
  IN : Option String
  OUT : Option String
  SRC : Option String
  DST : Option String
  PROTO : Option String
  L3_LEN : Option Int
  TOS : Option Int
  PREC : Option Int
  TTL : Option Int
  ID : Option Int
  SPT : Option Int
  DPT : Option Int
  L4_LEN : Option Int
  WINDOW : Option Int
  RES : Option Int
deriving DecidableEq, Repr

/-- External library behaviour the repository calls but does not implement:
`int(datetime.strptime(f"{year} {ts}", "%Y %b %d %H:%M:%S").timestamp())` for
the ambient year and timezone, `none` meaning the `ValueError` it raises on
input that does not match the format. -/
structure PyEnv where
  strptimeTs : String → Option Int

def inMark : List Char := " IN=".toList

def inSplit : List Char := "IN=".toList

def kernelMark : List Char := " kernel: ".toList

/-- The integer-typed parameter names searched by `get_parameters`
(`NF_INTS` minus the `_LEN` entries, in enum declaration order). -/
def nfIntNames : List (List Char) :=
  ["TOS".toList, "PREC".toList, "TTL".toList, "ID".toList, "SPT".toList,
   "DPT".toList, "WINDOW".toList, "RES".toList]

/-- `MacAddress.from_logline`: `findall` the MAC regex over the raw field; a
result of exactly two matches gives the tuple `(macs[0], macs[1])` which the
`MAC` setter unpacks as `(src_mac, dst_mac)`; anything else is a `ValueError`. -/
def from_logline (macSection : List Char) : Except ParseFail (List Char × List Char) :=
  match findallMac macSection with
  | m0 :: m1 :: [] => .ok (m0, m1)
  | _ => .error .valueError

/-- `pre_in`: `self.line.split("IN=")[0]` (the split pattern has no leading
space, unlike the presence check). -/
def preInOf (t : List Char) : List Char := takeBefore inSplit t

/-- `front`: the part of `pre_in` before ` kernel: `. -/
def frontOf (t : List Char) : List Char := takeBefore kernelMark (preInOf t)

/-- `hostname = front.split(" ")[-1]` (before its `.strip()`). -/
def hostTokOf (t : List Char) : List Char := lastTokenSpace (frontOf t)

/-- The raw timestamp: `front.replace(hostname, "").strip()`. -/
def tsRawOf (t : List Char) : List Char := pyStripList (removeAll (hostTokOf t) (frontOf t))

/-- The first exception `NetFilterLogLine.__post_init__` raises on the stripped
line `t`, or `none` if parsing succeeds. The checks appear in the source's
evaluation order: missing ` IN=`; missing ` kernel: ` in the pre-IN part;
tuple unpacking of `split(" kernel: ")`; the timestamp setter; the integer
parameter conversions; the `MAC` setter; the required-parameter loop
(`src_mac`, then the `(IN, OUT)` pair); the `IN == OUT` self-loop check. -/
def firstError (env : PyEnv) (t : List Char) : Option ParseFail :=
  if ¬ containsPat inMark t then some (.badLine ⟨t⟩ .missingIN) else
  if ¬ containsPat kernelMark (preInOf t) then some (.badLine ⟨t⟩ .missingKernelMarker) else
  match afterFirst kernelMark (preInOf t) with
  | none => some .valueError
  | some back =>
    if containsPat kernelMark back then some .valueError else
    if (decInt? (tsRawOf t)).isNone ∧ (env.strptimeTs ⟨tsRawOf t⟩).isNone then some .valueError else
    if nfIntNames.any (fun nm => (findParam nm t).map pyIntVal? = some none) then some .valueError else
    match findParam "MAC".toList t with
    | some m =>
      (match from_logline m with
       | .error _ => some .valueError
       | .ok _ =>
         match findParam "IN".toList t, findParam "OUT".toList t with
         | none, none => some (.badLine ⟨t⟩ (.missingRequiredParameter "IN/OUT"))
         | some a, some b => if a = b then some (.badLine ⟨t⟩ .selfLoop) else none
         | _, _ => none)
    | none => some (.badLine ⟨t⟩ (.missingRequiredParameter "src_mac"))

/-- The `(src_mac, dst_mac)` pair the `MAC` setter assigns, when the `MAC=`
parameter is present and parses. -/
def macPairOf (t : List Char) : Option (List Char × List Char) :=
  match findParam "MAC".toList t with
  | some m => (from_logline m).toOption
  | none => none

/-- The record `__post_init__` produces on the stripped line `t` when
`firstError` is `none`: every field is the net effect of the source's
`setattr` loops, i.e. a pure function of `t`. -/
def buildEvent (env : PyEnv) (t : List Char) : NetFilterLogLine :=
  { line := ⟨t⟩
    log_type :=
      match findParam "IN".toList t, findParam "OUT".toList t with
      | some _, none => .INBOUND
      | none, some _ => .OUTBOUND
      | _, _ => .FORWARD
    log_statement := ⟨pyStripList ((afterFirst kernelMark (preInOf t)).getD [])⟩
    hostname := ⟨pyStripList (hostTokOf t)⟩
    timestamp :=
      match decInt? (tsRawOf t) with
      | some n => n
      | none => (env.strptimeTs ⟨tsRawOf t⟩).getD 0
    src_mac := (macPairOf t).map (fun p => ⟨p.1⟩)
    dst_mac := (macPairOf t).map (fun p => ⟨p.2⟩)
    mac := (findParam "MAC".toList t).map (fun v => ⟨v⟩)
    ACK := findFlag "ACK".toList t
    FIN := findFlag "FIN".toList t
    SYN := findFlag "SYN".toList t
    RST := findFlag "RST".toList t
    PSH := findFlag "PSH".toList t
    URG := findFlag "URG".toList t
    ECE := findFlag "ECE".toList t
    ECT := findFlag "ECT".toList t
    CWR := findFlag "CWR".toList t
    CE := findFlag "CE".toList t
    DF := findFlag "DF".toList t
    IN := (findParam "IN".toList t).map (fun v => ⟨v⟩)
    OUT := (findParam "OUT".toList t).map (fun v => ⟨v⟩)
    SRC := (findParam "SRC".toList t).map (fun v => ⟨v⟩)
    DST := (findParam "DST".toList t).map (fun v => ⟨v⟩)
    PROTO := (findParam "PROTO".toList t).map (fun v => ⟨v⟩)
    L3_LEN := none
    TOS := (findParam "TOS".toList t).bind pyIntVal?
    PREC := (findParam "PREC".toList t).bind pyIntVal?
    TTL := (findParam "TTL".toList t).bind pyIntVal?
    ID := (findParam "ID".toList t).bind pyIntVal?
    SPT := (findParam "SPT".toList t).bind pyIntVal?
    DPT := (findParam "DPT".toList t).bind pyIntVal?
    L4_LEN := none
    WINDOW := (findParam "WINDOW".toList t).bind pyIntVal?
    RES := (findParam "RES".toList t).bind pyIntVal? }

/-- `NetFilterLogLine(raw)`: strip the raw line, then `__post_init__` either
raises the first error or yields the fully parsed record. -/
def parseLine (env : PyEnv) (raw : String) : Except ParseFail NetFilterLogLine :=
  match firstError env (pyStripList raw.toList) with
  | some e => .error e
  | none => .ok (buildEvent env (pyStripList raw.toList))

/-- `hash` property: SHA-256 hex digest of the stored line, as a function of an
explicit digest implementation. -/
def content_hash (sha256hex : String → String) (e : NetFilterLogLine) : String :=
  sha256hex e.line

/-- What `NetfilterLogReader.watch_log` does with one raw line. -/
inductive LineOutcome where
  | skippedBlank
  | queued (e : NetFilterLogLine)
  | archivedInvalid (line : String)
  | readerCrash
deriving DecidableEq, Repr

/-- One iteration of the `watch_log` read loop (`nft_log_reader.py` lines
41-54): blank lines are skipped; a parsed line is queued; a
`BadNFTLineError` is caught and its `.line` is pushed on the
`invalid_log_items` queue; any other exception (the parser's `ValueError`s)
is uncaught and kills the reader task. -/
def watchLogHandle (env : PyEnv) (raw : String) : LineOutcome :=
  if pyStripList raw.toList = [] then .skippedBlank
  else
    match parseLine env raw with
    | .ok e => .queued e
    | .error (.badLine l _) => .archivedInvalid l
    | .error .valueError => .readerCrash

/-! ## `dumpster_db.py`: the SQLite store

Tables are modelled as lists in insertion order; the `time()` columns as `Int`.
IP-valued columns are `Option String` because `log_item.SRC` is `None` for a
line without a `SRC=` parameter, and SQLite stores the `None` parameter as
NULL; `sqlEqStr` is the SQL `=` comparison, never true against NULL. -/

def sqlEqStr : Option String → Option String → Bool
  | some a, some b => a = b
  | _, _ => false

structure EventRow where
  id : String
  hostname : String
  in_dev : Option String
  out_dev : Option String
  src : Option String
  src_mac : String
  dst : Option String
  dst_mac : String
  spt : Option Int
  dpt : Option Int
  direction : String
  timestamp : Int
  line : String
deriving DecidableEq, Repr

/-- Python `str(x)` for an optional MAC value (`str(None) = "None"`). -/
def pyStr : Option String → String
  | some s => s
  | none => "None"

/-- The row `DumpsterDB.insert_logline` builds from a parsed log line
(`sha256hex` is the digest implementation behind the `hash` property). -/
def rowOf (sha256hex : String → String) (e : NetFilterLogLine) : EventRow :=
  { id := content_hash sha256hex e
    hostname := e.hostname
    in_dev := e.IN
    out_dev := e.OUT
    src := e.SRC
    src_mac := pyStr e.src_mac
    dst := e.DST
    dst_mac := pyStr e.dst_mac
    spt := e.SPT
    dpt := e.DPT
    direction := e.log_type.value
    timestamp := e.timestamp
    line := e.line }

structure DumpsterDB where
  events : List EventRow
  timeout : List (Option String × Int)
  bad : List (Option String × Int)
  invalid : List (String × Int)
  uncommitted_writes : Bool
deriving DecidableEq, Repr

inductive DBErr where
  | logLineExists
  | integrityError
deriving DecidableEq, Repr

/-- `insert_logline`: raise `LogLineExists` when a row with the same hash is
present, else insert and set the dirty flag. -/
def insert_logline (db : DumpsterDB) (row : EventRow) : Except DBErr DumpsterDB :=
  if db.events.any (fun r => r.id = row.id) then .error .logLineExists
  else .ok { db with events := db.events ++ [row], uncommitted_writes := true }

/-- `insert_invalid`: a bare `INSERT INTO invalid` — on a duplicate primary key
SQLite raises `IntegrityError`, which nothing in the repository catches. -/
def insert_invalid (db : DumpsterDB) (logline : String) (now : Int) : Except DBErr DumpsterDB :=
  if db.invalid.any (fun p => p.1 = logline) then .error .integrityError
  else .ok { db with invalid := db.invalid ++ [(logline, now)], uncommitted_writes := true }

/-- `get_from_ip`: all event rows with `src = ip AND timestamp > now - max_age`. -/
def get_from_ip (db : DumpsterDB) (ip : Option String) (now max_age : Int) : List EventRow :=
  db.events.filter (fun r => sqlEqStr r.src ip && decide (now - max_age < r.timestamp))

def get_bad_ips (db : DumpsterDB) : List (Option String) :=
  db.bad.map Prod.fst

def is_bad (db : DumpsterDB) (ip : Option String) : Bool :=
  db.bad.any (fun p => sqlEqStr p.1 ip)

/-- `insert_bad`: no-op when `is_bad`, else insert and set the dirty flag. -/
def insert_bad (db : DumpsterDB) (ip : Option String) (now : Int) : DumpsterDB :=
  if is_bad db ip then db
  else { db with bad := db.bad ++ [(ip, now)], uncommitted_writes := true }

def is_timed_out (db : DumpsterDB) (ip : Option String) : Bool :=
  db.timeout.any (fun p => sqlEqStr p.1 ip)

/-- `insert_timeout`: no-op when `is_timed_out`, else insert and set the dirty flag. -/
def insert_timeout (db : DumpsterDB) (ip : Option String) (now : Int) : DumpsterDB :=
  if is_timed_out db ip then db
  else { db with timeout := db.timeout ++ [(ip, now)], uncommitted_writes := true }

/-! ## `dumpster_rules.py`: the nftables sets

The kernel-side state the controller manipulates: the two named IPv4 sets of
the `dumpster` table. An element carries the `expires` value that
`get_set_elements` would report for it: the explicit timeout it was added
with, or `none` for an element added without a timeout (`get_set_elements`
maps plain elements and elements whose JSON carries no `expires` key to
`None`). -/

inductive NftSetId where
  | blackhole_set
  | blackhole_alt
deriving DecidableEq, Repr

structure FwState where
  blackhole_set : List (String × Option Nat)
  blackhole_alt : List (String × Option Nat)
deriving DecidableEq, Repr

def setElems (s : FwState) : NftSetId → List (String × Option Nat)
  | .blackhole_set => s.blackhole_set
  | .blackhole_alt => s.blackhole_alt

def withElems (s : FwState) : NftSetId → List (String × Option Nat) → FwState
  | .blackhole_set, l => { s with blackhole_set := l }
  | .blackhole_alt, l => { s with blackhole_alt := l }

/-- `get_set_elements` restricted to one key: the `expires` of `element`, or
`none` when the element is not in the set. -/
def lookupElem : List (String × Option Nat) → String → Option (Option Nat)
  | [], _ => none
  | (k, v) :: rest, element => if k = element then some v else lookupElem rest element

/-- `NFTSetItemExists(set_name, item, expires)` where `expires` is the value
`get_set_elements` reported (possibly `None`). -/
inductive AddErr where
  | itemExists (expires : Option Nat)
deriving DecidableEq, Repr

/-- `DumpsterRules.add_to_set`: query the set; if the element exists either
warn-and-return (`exist_ok`) or raise `NFTSetItemExists` carrying its
remaining `expires`; else run `add element` (with the given timeout, if any). -/
def add_to_set (s : FwState) (set_name : NftSetId) (element : String)
    (timeout : Option Nat) (exist_ok : Bool) : Except AddErr FwState :=
  match lookupElem (setElems s set_name) element with
  | some expires => if exist_ok then .ok s else .error (.itemExists expires)
  | none => .ok (withElems s set_name ((element, timeout) :: setElems s set_name))

/-- `add_to_set(..., exist_ok=True)` never raises; this is its result. -/
def add_exist_ok (s : FwState) (set_name : NftSetId) (element : String)
    (timeout : Option Nat) : FwState :=
  match add_to_set s set_name element timeout true with
  | .ok s2 => s2
  | .error _ => s

/-- `DumpsterRules.remove_from_set` (`destroy element`, which does not fail on
an absent element). -/
def remove_from_set (s : FwState) (set_name : NftSetId) (element : String) : FwState :=
  withElems s set_name ((setElems s set_name).filter (fun p => decide (p.1 ≠ element)))

/-- Exceptions escaping `DumpsterRules.blackhole`. -/
inductive PyErr where
  | typeError
deriving DecidableEq, Repr

/-- Rotation step 1: `add_to_set("dumpster_blackhole_alt", ip, exist_ok=True)`. -/
def rotStep1 (s : FwState) (ip : String) : FwState :=
  add_exist_ok s .blackhole_alt ip none

/-- Rotation step 2: `remove_from_set("dumpster_blackhole", ip)`. -/
def rotStep2 (s : FwState) (ip : String) : FwState :=
  remove_from_set (rotStep1 s ip) .blackhole_set ip

/-- Rotation step 3: `add_to_set("dumpster_blackhole", ip, timeout=newTimeout)`.
The add succeeds because step 2 removed `ip` from the primary set
(`add_to_set_after_remove` below certifies this against `add_to_set`). -/
def rotStep3 (s : FwState) (ip : String) (newTimeout : Nat) : FwState :=
  withElems (rotStep2 s ip) .blackhole_set
    ((ip, some newTimeout) :: setElems (rotStep2 s ip) .blackhole_set)

/-- Rotation step 4: `remove_from_set("dumpster_blackhole_alt", ip)`. -/
def rotStep4 (s : FwState) (ip : String) (newTimeout : Nat) : FwState :=
  remove_from_set (rotStep3 s ip newTimeout) .blackhole_alt ip

/-- `DumpsterRules.blackhole`: try a plain add to the primary set; on
`NFTSetItemExists` run the four-step rotation with the new timeout
`e.expires + 15 * 60`. The new-timeout expression is evaluated when step 3 is
called, i.e. after steps 1 and 2 have already mutated kernel state; when
`e.expires` is `None` (an untimed element), `None + 15 * 60` raises an
unhandled `TypeError` that propagates to the caller (kernel state at the
raise is `rotStep2 s ip`). -/
def blackhole (s : FwState) (ip : String) : Except PyErr FwState :=
  match add_to_set s .blackhole_set ip none false with
  | .ok s2 => .ok s2
  | .error (.itemExists expires) =>
    match expires with
    | none => .error .typeError
    | some r => .ok (rotStep4 s ip (r + 15 * 60))

/-- The refresh behaviour the specification describes for
`time_out(ip, seconds)`: on `SetItemExists` with remaining `r`, rotate and
re-add with timeout `r + seconds`, `seconds` being the caller's fresh window.
This is the claim's reading, stated for comparison against `blackhole`,
which hardcodes `15 * 60` instead. -/
def time_out_claimed (s : FwState) (ip : String) (seconds : Nat) : Except PyErr FwState :=
  match add_to_set s .blackhole_set ip (some seconds) false with
  | .ok s2 => .ok s2
  | .error (.itemExists expires) =>
    match expires with
    | none => .error .typeError
    | some r => .ok (rotStep4 s ip (r + seconds))

/-- Modelled from the spec: `Dumpster.__init__` and `handle_log_item` call
`self.nft.block(...)`, but `DumpsterRules` (the only firewall controller under
`src/`) defines no `block` method; per the specification's §4.4
`block_permanent(ip)` / `block_permanent(ips)` adds the element(s) to the
primary set with no timeout, `exist_ok=true`. A `None` entry is rendered by
Python string interpolation into the nft command, hence `pyStr`. -/
def block (fw : FwState) (ips : List (Option String)) : FwState :=
  ips.foldl (fun s ip => add_exist_ok s .blackhole_set (pyStr ip) none) fw

/-- The firewall side of `Dumpster.__init__`:
`self.nft.block(self.db.get_bad_ips())`. -/
def dumpster_init_fw (db : DumpsterDB) (fw : FwState) : FwState :=
  block fw (get_bad_ips db)

/-! ## `dumpster.py`: the policy engine -/

/-- The firewall-controller calls `handle_log_item` makes. `time_out` is
the call `self.nft.time_out(ip, self.timeout)` (whose refresh path is the
rotation); `block` is `self.nft.block(ip)`. -/
inductive NftAction where
  | block (ip : Option String)
  | time_out (ip : Option String) (seconds : Nat)
deriving DecidableEq, Repr

/-- The five configuration scalars of `Dumpster`. -/
structure Config where
  repeat_period : Int
  repeat_count : Nat
  timeout : Nat
  bad_ip_threshold : Nat
  scan_directions : List String
deriving DecidableEq, Repr

/-- `Dumpster.handle_log_item`: insert the event (returning on
`LogLineExists`), count recent drops from the same source, then the
threshold / timed-out / scan-direction branch cascade. Returns the updated
store and the firewall calls made, in order. -/
def handle_log_item (cfg : Config) (sha256hex : String → String) (now : Int)
    (db : DumpsterDB) (e : NetFilterLogLine) : DumpsterDB × List NftAction :=
  match insert_logline db (rowOf sha256hex e) with
  | .error _ => (db, [])
  | .ok db1 =>
    let recent_drops := (get_from_ip db1 e.SRC now cfg.repeat_period).length
    if cfg.bad_ip_threshold ≤ recent_drops then
      (insert_bad db1 e.SRC now, [.block e.SRC])
    else if is_timed_out db1 e.SRC then
      (db1, [.time_out e.SRC cfg.timeout])
    else if e.log_type.pyName ∈ cfg.scan_directions ∧ cfg.repeat_count ≤ recent_drops then
      (insert_timeout db1 e.SRC now, [.time_out e.SRC cfg.timeout])
    else
      (db1, [])

/-- First-applicable-branch selection, as the claim phrases the decision
tree: the guards are evaluated in list order and the first true guard's
outcome wins. -/
def firstApplicable {α : Type} : List (Bool × α) → α → α
  | [], dflt => dflt
  | (g, a) :: rest, dflt => if g then a else firstApplicable rest dflt

/-- The decision tree exactly as the claim describes it: an ordered branch
list — (3) permanent block and bad-table insert when the recent count reaches
`bad_ip_threshold`; (4) timed-block refresh when the source is in the timeout
table; (5) timed block plus timeout-table insert when the direction is
scanned and the count reaches `repeat_count`; (6) nothing — preceded by (1)
the insert-with-early-return and (2) the recent count. -/
def handle_event_claimed (cfg : Config) (sha256hex : String → String) (now : Int)
    (db : DumpsterDB) (e : NetFilterLogLine) : DumpsterDB × List NftAction :=
  match insert_logline db (rowOf sha256hex e) with
  | .error _ => (db, [])
  | .ok db1 =>
    let n := (get_from_ip db1 e.SRC now cfg.repeat_period).length
    firstApplicable
      [(decide (cfg.bad_ip_threshold ≤ n), (insert_bad db1 e.SRC now, [.block e.SRC])),
       (is_timed_out db1 e.SRC, (db1, [.time_out e.SRC cfg.timeout])),
       (decide (e.log_type.pyName ∈ cfg.scan_directions) && decide (cfg.repeat_count ≤ n),
         (insert_timeout db1 e.SRC now, [.time_out e.SRC cfg.timeout]))]
      (db1, [])

/-- Membership in the union of the two blackhole sets: the condition under
which the two drop rules match a source address. -/
def memUnion (s : FwState) (ip : String) : Prop :=
  (lookupElem s.blackhole_set ip).isSome ∨ (lookupElem s.blackhole_alt ip).isSome

/-! ## Concrete vectors for counterexamples and witnesses -/

/-- A trivial external environment: `strptime` rejects everything (all the
concrete lines below carry numeric timestamps, so it is never consulted). -/
def envTriv : PyEnv := ⟨fun _ => none⟩

/-- The repository's exemplar log line (its `Dec 28 22:16:18` prefix replaced
by a numeric timestamp so that the parse does not depend on `strptime`). -/
def exLine : String :=
  "1700000000 hostname kernel: [2794371.848017] Dropped input traffic: IN=wan OUT= MAC=aa:bb:cc:dd:ee:ff:ff:ee:dd:cc:bb:aa:08:00 SRC=1.2.3.4 DST=4.3.2.1 LEN=48 TOS=0x00 PREC=0x00 TTL=113 ID=1609 DF PROTO=TCP SPT=51004 DPT=37888 WINDOW=64240 RES=0x00 SYN URGP=0 "

/-- An accepted non-TCP/UDP line with no `SPT=` / `DPT=` parameters. -/
def icmpLine : String :=
  "1700000000 myhost kernel: [0.1] Dropped: IN=wan OUT= MAC=aa:bb:cc:dd:ee:ff:ff:ee:dd:cc:bb:aa:08:00 SRC=1.2.3.4 DST=4.3.2.1 LEN=84 TOS=0x00 PREC=0x00 TTL=64 ID=0 PROTO=ICMP"

/-- A line whose `MAC=` field the MAC regex cannot parse: `MacAddress.from_logline`
raises `ValueError`, which is not a `BadNFTLineError`. -/
def badMacLine : String :=
  "1700000000 myhost kernel: msg: IN=eth0 OUT= MAC=xx SRC=1.2.3.4 DST=4.3.2.1 PROTO=ICMP"

/-- A line without the required ` IN=` marker: rejected with `BadNFTLineError`. -/
def noInLine : String := "1700000000 myhost kernel: msg no in marker"

/-- A firewall state whose primary set holds one element with 10 s remaining. -/
def fwTimed10 : FwState := ⟨[("5.6.7.8", some 10)], []⟩

/-- A firewall state whose primary set holds one untimed element, as a
permanently blocked address is stored. -/
def fwUntimed : FwState := ⟨[("1.2.3.4", none)], []⟩

/-- A store whose `invalid` table already holds a line. -/
def dbWithInvalid : DumpsterDB := ⟨[], [], [], [("bogus line", 1)], false⟩

def dbEmpty : DumpsterDB := ⟨[], [], [], [], false⟩

/-- A store whose `bad` table holds one persisted permanently-blocked IP. -/
def dbBad : DumpsterDB := ⟨[], [], [(some "9.9.9.9", 5)], [], false⟩

def fwEmpty : FwState := ⟨[], []⟩

/-! ### Strip is idempotent (needed for the reparse claim) -/

theorem dropWhile_dropWhile (p : Char → Bool) (l : List Char) :
    (l.dropWhile p).dropWhile p = l.dropWhile p := by
  induction l with
  | nil => rfl
  | cons a t ih =>
    by_cases h : p a
    · simp [List.dropWhile, h, ih]
    · simp [List.dropWhile, h]

theorem dropWhile_head_false (p : Char → Bool) (a : Char) (t l : List Char)
    (h : l.dropWhile p = a :: t) : p a = false := by
  induction l with
  | nil => simp [List.dropWhile] at h
  | cons b s ih =>
    by_cases hb : p b
    · exact ih (by simpa [List.dropWhile, hb] using h)
    · simp only [List.dropWhile, hb] at h
      cases h
      simpa using hb

theorem dropWhile_eq_drop (p : Char → Bool) (l : List Char) :
    ∃ n, l.dropWhile p = l.drop n := by
  induction l with
  | nil => exact ⟨0, rfl⟩
  | cons a t ih =>
    by_cases h : p a
    · obtain ⟨n, hn⟩ := ih
      exact ⟨n + 1, by simpa [List.dropWhile, h] using hn⟩
    · exact ⟨0, by simp [List.dropWhile, h]⟩

theorem dropWhile_take_of_fixed (p : Char → Bool) (l : List Char)
    (h : l.dropWhile p = l) (k : Nat) : (l.take k).dropWhile p = l.take k := by
  cases l with
  | nil => simp
  | cons a t =>
    cases k with
    | zero => simp [List.dropWhile]
    | succ k =>
      have ha : p a = false := dropWhile_head_false p a t (a :: t) h
      simp [List.dropWhile, ha]

/-- Dropping trailing whitespace preserves "no leading whitespace". -/
theorem stripRight_of_fixed (p : Char → Bool) (l : List Char)
    (h : l.dropWhile p = l) :
    ((l.reverse.dropWhile p).reverse).dropWhile p = (l.reverse.dropWhile p).reverse := by
  obtain ⟨n, hn⟩ := dropWhile_eq_drop p l.reverse
  have : (l.reverse.dropWhile p).reverse = l.take (l.length - n) := by
    rw [hn, List.reverse_drop, List.length_reverse, List.reverse_reverse]
  rw [this]
  exact dropWhile_take_of_fixed p l h _

theorem pyStripList_idem (l : List Char) : pyStripList (pyStripList l) = pyStripList l := by
  unfold pyStripList
  have h1 : ((l.dropWhile isPySpace).reverse.dropWhile isPySpace).reverse.dropWhile isPySpace
      = ((l.dropWhile isPySpace).reverse.dropWhile isPySpace).reverse :=
    stripRight_of_fixed isPySpace (l.dropWhile isPySpace) (dropWhile_dropWhile _ _)
  rw [h1, List.reverse_reverse, dropWhile_dropWhile]

theorem pyStrip_idem (s : String) : pyStrip (pyStrip s) = pyStrip s := by
  show (⟨pyStripList (pyStripList s.data)⟩ : String) = (⟨pyStripList s.data⟩ : String)
  rw [pyStripList_idem]

/-! ### Association-list / set helper lemmas -/

theorem setElems_withElems_self (s : FwState) (w : NftSetId) (l : List (String × Option Nat)) :
    setElems (withElems s w l) w = l := by
  cases w <;> rfl

theorem lookupElem_cons_self (l : List (String × Option Nat)) (ip : String) (v : Option Nat) :
    lookupElem ((ip, v) :: l) ip = some v := by
  simp [lookupElem]

theorem lookupElem_filter_self (l : List (String × Option Nat)) (ip : String) :
    lookupElem (l.filter (fun p => decide (p.1 ≠ ip))) ip = none := by
  induction l with
  | nil => rfl
  | cons a rest ih =>
    by_cases h : a.1 = ip
    · simpa [List.filter_cons, h] using ih
    · simpa [List.filter_cons, h, lookupElem] using ih

theorem lookupElem_add_exist_ok_self (s : FwState) (w : NftSetId) (x : String) (t : Option Nat) :
    (lookupElem (setElems (add_exist_ok s w x t) w) x).isSome := by
  unfold add_exist_ok add_to_set
  cases hl : lookupElem (setElems s w) x with
  | some v => simp [hl]
  | none => simp [hl, setElems_withElems_self, lookupElem]

theorem lookupElem_add_exist_ok_preserve (s : FwState) (w : NftSetId) (x y : String)
    (t : Option Nat) (h : (lookupElem (setElems s w) y).isSome) :
    (lookupElem (setElems (add_exist_ok s w x t) w) y).isSome := by
  unfold add_exist_ok add_to_set
  cases hl : lookupElem (setElems s w) x with
  | some v => simpa [hl] using h
  | none =>
    by_cases hxy : x = y
    · subst hxy; simp [hl, setElems_withElems_self, lookupElem]
    · simpa [hl, setElems_withElems_self, lookupElem, hxy] using h

/-! ### Rotation lemmas -/

/-- `rotStep3` is faithful: after step 2 removed `ip` from the primary set,
the `add_to_set` of step 3 succeeds and produces exactly `rotStep3`. -/
theorem add_to_set_after_remove (s : FwState) (ip : String) (t : Nat) :
    add_to_set (rotStep2 s ip) .blackhole_set ip (some t) false = .ok (rotStep3 s ip t) := by
  unfold add_to_set rotStep3
  have hl : lookupElem (setElems (rotStep2 s ip) .blackhole_set) ip = none := by
    show lookupElem (((rotStep1 s ip).blackhole_set).filter (fun p => decide (p.1 ≠ ip))) ip = none
    exact lookupElem_filter_self _ _
  rw [hl]

/-- On a primary-set element with remaining timeout `r`, `blackhole` runs the
rotation and finishes in `rotStep4` with new timeout `r + 15 * 60`. -/
theorem blackhole_rotation (s : FwState) (ip : String) (r : Nat)
    (h : lookupElem s.blackhole_set ip = some (some r)) :
    blackhole s ip = .ok (rotStep4 s ip (r + 15 * 60)) := by
  simp [blackhole, add_to_set, setElems, h]

/-- C10: an untimed element of the primary blackhole set (as a permanently
blocked address is stored) makes the timeout-refresh path non-total:
`get_set_elements` reports its remaining time as null, `add_to_set` raises
`NFTSetItemExists` with `expires = None`, and `blackhole`'s step 3 computes
`e.expires + 15 * 60 = None + 900`, an unhandled `TypeError`. -/
theorem blackhole_untimed_typeerror (s : FwState) (ip : String)
    (h : lookupElem s.blackhole_set ip = some none) :
    add_to_set s .blackhole_set ip none false = .error (.itemExists none) ∧
    blackhole s ip = .error .typeError := by
  constructor
  · simp [add_to_set, setElems, h]
  · simp [blackhole, add_to_set, setElems, h]

/-- Witness for C10 at a concrete state; the state itself is reachable (it is
what a first `blackhole` of a fresh address produces, since the non-refresh
path adds the element without an explicit timeout). -/
theorem blackhole_untimed_typeerror_witness :
    add_to_set fwUntimed .blackhole_set "1.2.3.4" none false = .error (.itemExists none) ∧
    blackhole fwUntimed "1.2.3.4" = .error .typeError :=
  blackhole_untimed_typeerror fwUntimed "1.2.3.4" rfl

/-- C2 (amended): refreshing the timeout of an element with remaining `r`
re-adds it with timeout `r + 15 * 60` — the 15-minute window hardcoded in
`blackhole`, not the caller's fresh window. -/
theorem blackhole_refresh_hardcoded (s : FwState) (ip : String) (r : Nat)
    (h : lookupElem s.blackhole_set ip = some (some r)) :
    blackhole s ip = .ok (rotStep4 s ip (r + 15 * 60)) ∧
    lookupElem (rotStep4 s ip (r + 15 * 60)).blackhole_set ip = some (some (r + 15 * 60)) := by
  refine ⟨blackhole_rotation s ip r h, ?_⟩
  show lookupElem (rotStep3 s ip (r + 15 * 60)).blackhole_set ip = some (some (r + 15 * 60))
  show lookupElem ((ip, some (r + 15 * 60)) :: setElems (rotStep2 s ip) .blackhole_set) ip = _
  exact lookupElem_cons_self _ _ _

theorem blackhole_refresh_hardcoded_witness :
    blackhole fwTimed10 "5.6.7.8" = .ok (rotStep4 fwTimed10 "5.6.7.8" (10 + 15 * 60)) ∧
    lookupElem (rotStep4 fwTimed10 "5.6.7.8" (10 + 15 * 60)).blackhole_set "5.6.7.8" =
      some (some (10 + 15 * 60)) :=
  blackhole_refresh_hardcoded fwTimed10 "5.6.7.8" 10 rfl

/-- C2 counterexample: on an element with 10 s remaining, the refresh invoked
with a caller window of 2000 s (`self.nft.time_out(ip, self.timeout)` with the
configurable `timeout = 2000`) installs `10 + 900 = 910` seconds, while the
claim's `r + seconds` reading would install `2010`; the claimed monotonic
extension `residual ≥ pre + t` fails since `910 < 10 + 2000`. -/
theorem blackhole_ignores_window_counterexample :
    blackhole fwTimed10 "5.6.7.8" = .ok ⟨[("5.6.7.8", some 910)], []⟩ ∧
    time_out_claimed fwTimed10 "5.6.7.8" 2000 = .ok ⟨[("5.6.7.8", some 2010)], []⟩ ∧
    910 < 10 + 2000 := by
  refine ⟨?_, ?_, by norm_num⟩ <;> rfl

/-- C3: whenever the rotation runs (the refreshed element is in the primary
set with remaining `r`), every observable state between step 1 and step 4
keeps the address in the union of the primary and alt sets, so the two drop
rules never stop matching it. -/
theorem rotation_union_invariant (s : FwState) (ip : String) (r : Nat)
    (h : lookupElem s.blackhole_set ip = some (some r)) :
    blackhole s ip = .ok (rotStep4 s ip (r + 15 * 60)) ∧
    memUnion (rotStep1 s ip) ip ∧ memUnion (rotStep2 s ip) ip ∧
    memUnion (rotStep3 s ip (r + 15 * 60)) ip ∧ memUnion (rotStep4 s ip (r + 15 * 60)) ip := by
  have h1 : (lookupElem (rotStep1 s ip).blackhole_alt ip).isSome :=
    lookupElem_add_exist_ok_self s .blackhole_alt ip none
  have h2 : (lookupElem (rotStep2 s ip).blackhole_alt ip).isSome := h1
  have h3 : (lookupElem (rotStep3 s ip (r + 15 * 60)).blackhole_set ip).isSome := by
    show (lookupElem ((ip, some (r + 15 * 60)) :: setElems (rotStep2 s ip) .blackhole_set) ip).isSome
    rw [lookupElem_cons_self]
    rfl
  have h4 : (lookupElem (rotStep4 s ip (r + 15 * 60)).blackhole_set ip).isSome := h3
  exact ⟨blackhole_rotation s ip r h, .inr h1, .inr h2, .inl h3, .inl h4⟩

theorem rotation_union_invariant_witness :
    blackhole fwTimed10 "5.6.7.8" = .ok (rotStep4 fwTimed10 "5.6.7.8" (10 + 15 * 60)) ∧
    memUnion (rotStep1 fwTimed10 "5.6.7.8") "5.6.7.8" ∧
    memUnion (rotStep2 fwTimed10 "5.6.7.8") "5.6.7.8" ∧
    memUnion (rotStep3 fwTimed10 "5.6.7.8" (10 + 15 * 60)) "5.6.7.8" ∧
    memUnion (rotStep4 fwTimed10 "5.6.7.8" (10 + 15 * 60)) "5.6.7.8" :=
  rotation_union_invariant fwTimed10 "5.6.7.8" 10 rfl

/-! ### Startup re-installation (C1) -/

theorem lookupElem_block_preserve (ips : List (Option String)) (fw : FwState) (y : String)
    (h : (lookupElem fw.blackhole_set y).isSome) :
    (lookupElem (block fw ips).blackhole_set y).isSome := by
  induction ips generalizing fw with
  | nil => exact h
  | cons a rest ih =>
    show (lookupElem (block (add_exist_ok fw .blackhole_set (pyStr a) none) rest).blackhole_set y).isSome
    exact ih _ (lookupElem_add_exist_ok_preserve fw .blackhole_set (pyStr a) y none h)

theorem lookupElem_block_mem (ips : List (Option String)) (fw : FwState) (ip : Option String)
    (h : ip ∈ ips) :
    (lookupElem (block fw ips).blackhole_set (pyStr ip)).isSome := by
  induction ips generalizing fw with
  | nil => cases h
  | cons a rest ih =>
    rcases List.mem_cons.mp h with rfl | hm
    · show (lookupElem (block (add_exist_ok fw .blackhole_set (pyStr ip) none) rest).blackhole_set
          (pyStr ip)).isSome
      exact lookupElem_block_preserve rest _ (pyStr ip)
        (lookupElem_add_exist_ok_self fw .blackhole_set (pyStr ip) none)
    · exact ih _ hm

/-- C1: `Dumpster.__init__` re-installs a permanent block for every IP of the
store's `bad` table: it invokes the controller's permanent-block operation on
the full list `get_bad_ips()` returns, so after initialization each persisted
bad IP is a member of the primary blackhole set. (The permanent-block
operation itself is modelled from the spec, see `block`.) -/
theorem init_blocks_bad_ips (db : DumpsterDB) (fw : FwState) (ip : Option String)
    (h : ip ∈ get_bad_ips db) :
    dumpster_init_fw db fw = block fw (get_bad_ips db) ∧
    (lookupElem (dumpster_init_fw db fw).blackhole_set (pyStr ip)).isSome :=
  ⟨rfl, lookupElem_block_mem (get_bad_ips db) fw ip h⟩

theorem init_blocks_bad_ips_witness :
    dumpster_init_fw dbBad fwEmpty = block fwEmpty (get_bad_ips dbBad) ∧
    (lookupElem (dumpster_init_fw dbBad fwEmpty).blackhole_set (pyStr (some "9.9.9.9"))).isSome :=
  init_blocks_bad_ips dbBad fwEmpty (some "9.9.9.9") (by simp [get_bad_ips, dbBad])

/-! ### The decision tree of `handle_log_item` (C4) -/

/-- C4: for every delivered event, `handle_log_item` behaves as the ordered
first-applicable-branch cascade the specification describes: (1) insert,
returning on a duplicate; (2) count recent same-source events; (3) threshold
reached — permanent block plus bad-table insert; (4) already timed out —
refresh; (5) scanned direction and repeat count reached — timed block plus
timeout-table insert; (6) otherwise nothing. -/
theorem handle_log_item_branch_order (cfg : Config) (sha256hex : String → String) (now : Int)
    (db : DumpsterDB) (e : NetFilterLogLine) :
    handle_log_item cfg sha256hex now db e = handle_event_claimed cfg sha256hex now db e := by
  unfold handle_log_item handle_event_claimed
  cases hins : insert_logline db (rowOf sha256hex e) with
  | error err => rfl
  | ok db1 =>
    by_cases h1 : cfg.bad_ip_threshold ≤ (get_from_ip db1 e.SRC now cfg.repeat_period).length
    · simp [firstApplicable, h1]
    · by_cases h2 : is_timed_out db1 e.SRC
      · simp [firstApplicable, h1, h2]
      · by_cases h3 : e.log_type.pyName ∈ cfg.scan_directions
        · by_cases h4 : cfg.repeat_count ≤ (get_from_ip db1 e.SRC now cfg.repeat_period).length
          · simp [firstApplicable, h1, h2, h3, h4]
          · simp [firstApplicable, h1, h2, h3, h4]
        · simp [firstApplicable, h1, h2, h3]

/-! ### `insert_invalid` on a duplicate (C8) -/

/-- C8: `insert_invalid` inserts the line and marks the store dirty, but a
line already present in the `invalid` table is not absorbed: the bare
`INSERT` hits the primary-key conflict and raises `IntegrityError`, which
propagates to the caller (`process_log_queue` has no handler for it). -/
theorem insert_invalid_duplicate_raises :
    insert_invalid dbEmpty "bogus line" 1 = .ok ⟨[], [], [], [("bogus line", 1)], true⟩ ∧
    insert_invalid dbWithInvalid "bogus line" 2 = .error .integrityError := by
  exact ⟨rfl, rfl⟩

/-! ### Parser helper lemmas -/

theorem parseLine_ok_elim (env : PyEnv) (raw : String) (e : NetFilterLogLine)
    (h : parseLine env raw = .ok e) :
    firstError env (pyStripList raw.toList) = none ∧ e = buildEvent env (pyStripList raw.toList) := by
  unfold parseLine at h
  cases hfe : firstError env (pyStripList raw.toList) with
  | some f => rw [hfe] at h; cases h
  | none =>
    rw [hfe] at h
    injection h with h2
    exact ⟨rfl, h2.symm⟩

theorem buildEvent_line (env : PyEnv) (t : List Char) : (buildEvent env t).line = ⟨t⟩ := rfl

/-! ### Reparsing the stored line (C9) -/

/-- C9: for a raw line that parses successfully, re-parsing the stored trimmed
text `parse(R).line` yields an event equal in every field, and hence with an
identical content hash, for any digest implementation. -/
theorem parse_trim_idempotent (env : PyEnv) (sha256hex : String → String) (raw : String)
    (e : NetFilterLogLine) (h : parseLine env raw = .ok e) :
    parseLine env e.line = .ok e ∧
    (∀ e2, parseLine env e.line = .ok e2 → content_hash sha256hex e2 = content_hash sha256hex e) := by
  obtain ⟨hfe, he⟩ := parseLine_ok_elim env raw e h
  have hlist : e.line.toList = pyStripList raw.toList := by
    rw [he]; rfl
  have hstrip : pyStripList e.line.toList = pyStripList raw.toList := by
    rw [hlist, pyStripList_idem]
  have hmain : parseLine env e.line = .ok e := by
    unfold parseLine
    rw [hstrip, hfe, he]
  refine ⟨hmain, fun e2 h2 => ?_⟩
  rw [hmain] at h2
  injection h2 with h3
  rw [h3]

set_option maxRecDepth 40000 in
theorem parse_trim_idempotent_witness :
    parseLine envTriv exLine = .ok (buildEvent envTriv (pyStripList exLine.toList)) ∧
    parseLine envTriv (buildEvent envTriv (pyStripList exLine.toList)).line =
      .ok (buildEvent envTriv (pyStripList exLine.toList)) :=
  ⟨rfl, (parse_trim_idempotent envTriv (fun s => s) exLine _ rfl).1⟩

/-! ### SPT/DPT defaulting (C7) -/

/-- C7 (amended): for an accepted line whose PROTO is neither TCP nor UDP and
whose SPT and DPT parameters are absent, the parsed event's SPT and DPT keep
their dataclass default `None` — nothing in `nft_line.py` defaults them to 0
(that defaulting existed only in the abandoned top-level iteration). -/
theorem missing_ports_stay_none (env : PyEnv) (raw : String) (e : NetFilterLogLine)
    (h : parseLine env raw = .ok e)
    (hproto : e.PROTO ≠ some "TCP" ∧ e.PROTO ≠ some "UDP")
    (hspt : findParam "SPT".toList e.line.toList = none)
    (hdpt : findParam "DPT".toList e.line.toList = none) :
    e.SPT = none ∧ e.DPT = none := by
  obtain ⟨hfe, he⟩ := parseLine_ok_elim env raw e h
  have hlist : e.line.toList = pyStripList raw.toList := by rw [he]; rfl
  rw [hlist] at hspt hdpt
  subst he
  constructor
  · show (findParam "SPT".toList (pyStripList raw.toList)).bind pyIntVal? = none
    rw [hspt]
    rfl
  · show (findParam "DPT".toList (pyStripList raw.toList)).bind pyIntVal? = none
    rw [hdpt]
    rfl

set_option maxRecDepth 40000 in
/-- C7 counterexample: the accepted ICMP exemplar (PROTO=ICMP, no SPT/DPT)
parses with SPT = DPT = None; the claimed defaulting to 0 does not happen. -/
theorem missing_ports_counterexample :
    (parseLine envTriv icmpLine).map (fun e => (e.PROTO, e.SPT, e.DPT)) =
      .ok (some "ICMP", none, none) ∧
    ((.ok (some "ICMP", none, none) :
        Except ParseFail (Option String × Option Int × Option Int)) ≠
      .ok (some "ICMP", some 0, some 0)) :=
  ⟨rfl, fun hc => by injection hc with h2; simp at h2⟩

set_option maxRecDepth 40000 in
theorem missing_ports_stay_none_witness :
    parseLine envTriv icmpLine = .ok (buildEvent envTriv (pyStripList icmpLine.toList)) ∧
    (buildEvent envTriv (pyStripList icmpLine.toList)).SPT = none ∧
    (buildEvent envTriv (pyStripList icmpLine.toList)).DPT = none := by
  refine ⟨rfl, ?_⟩
  have := missing_ports_stay_none envTriv icmpLine
    (buildEvent envTriv (pyStripList icmpLine.toList)) rfl ⟨by decide, by decide⟩ rfl rfl
  exact this

/-! ### Rejection handling (C5) -/

/-- Every `BadNFTLineError` the parser raises carries the stripped line. -/
theorem firstError_badLine_line (env : PyEnv) (t : List Char) (l : String) (k : BadKind)
    (h : firstError env t = some (.badLine l k)) : l = ⟨t⟩ := by
  unfold firstError at h
  repeat' split at h
  all_goals simp_all

/-- C5 (amended): a rejection raised as `BadNFTLineError` (missing ` IN=`,
missing ` kernel: `, missing required parameter, self-loop) carries the
stripped original line, is caught by `watch_log`, and the line is archived on
the invalid queue — non-fatal. A rejection that surfaces as `ValueError`
(unparseable timestamp or MAC field, bad integer literal) is not caught by
`watch_log`: nothing is archived and the reader task dies. -/
theorem rejection_handling (env : PyEnv) (raw : String) (err : ParseFail)
    (hblank : pyStripList raw.toList ≠ [])
    (h : parseLine env raw = .error err) :
    (∀ l k, err = .badLine l k →
      l = pyStrip raw ∧ watchLogHandle env raw = .archivedInvalid (pyStrip raw)) ∧
    (err = .valueError → watchLogHandle env raw = .readerCrash) := by
  have hfe : firstError env (pyStripList raw.toList) = some err := by
    unfold parseLine at h
    cases hfe : firstError env (pyStripList raw.toList) with
    | some f => rw [hfe] at h; injection h with h2; rw [h2]
    | none => rw [hfe] at h; cases h
  constructor
  · rintro l k rfl
    have hl : l = pyStrip raw := firstError_badLine_line env _ l k hfe
    refine ⟨hl, ?_⟩
    unfold watchLogHandle
    rw [if_neg hblank, h, hl]
  · rintro rfl
    unfold watchLogHandle
    rw [if_neg hblank, h]

set_option maxRecDepth 40000 in
/-- C5 counterexample: a line with a malformed `MAC=` field is rejected via
`ValueError` (not a `BadNFTLineError` with a kind), so the rejection is fatal
to the reader and the line is never archived to the invalid table. -/
theorem rejection_valueerror_counterexample :
    parseLine envTriv badMacLine = .error .valueError ∧
    watchLogHandle envTriv badMacLine = .readerCrash :=
  ⟨rfl, rfl⟩

set_option maxRecDepth 40000 in
theorem rejection_handling_witness :
    parseLine envTriv noInLine = .error (.badLine (pyStrip noInLine) .missingIN) ∧
    watchLogHandle envTriv noInLine = .archivedInvalid (pyStrip noInLine) := by
  refine ⟨rfl, ?_⟩
  exact ((rejection_handling envTriv noInLine (.badLine (pyStrip noInLine) .missingIN)
    (by decide) rfl).1 (pyStrip noInLine) .missingIN rfl).2

/-! ### MAC field splitting (C6) -/

theorem matchMac17_some (s m after : List Char) (h : matchMac17 s = some (m, after)) :
    s.length = 17 + after.length := by
  unfold matchMac17 at h
  split at h
  · split at h
    · injection h with h2
      obtain ⟨hm, ha⟩ := Prod.mk.injEq .. ▸ h2
      subst ha
      simp only [List.length_cons]
      omega
    · cases h
  · cases h

theorem findallMacF_nil (fuel : Nat) : findallMacF fuel [] = [] := by
  cases fuel <;> rfl

theorem findallMacF_fuel : ∀ (n fuel1 fuel2 : Nat) (s : List Char),
    s.length ≤ n → s.length ≤ fuel1 → s.length ≤ fuel2 →
    findallMacF fuel1 s = findallMacF fuel2 s := by
  intro n
  induction n with
  | zero =>
    intro f1 f2 s hn _ _
    have hs : s = [] := List.eq_nil_of_length_eq_zero (Nat.le_zero.mp hn)
    subst hs
    rw [findallMacF_nil, findallMacF_nil]
  | succ n ih =>
    intro f1 f2 s hn h1 h2
    cases s with
    | nil => rw [findallMacF_nil, findallMacF_nil]
    | cons c rest =>
      simp only [List.length_cons] at hn h1 h2
      cases f1 with
      | zero => omega
      | succ f1 =>
        cases f2 with
        | zero => omega
        | succ f2 =>
          cases hm : matchMac17 (c :: rest) with
          | some p =>
            obtain ⟨m, after⟩ := p
            have hlen := matchMac17_some (c :: rest) m after hm
            simp only [List.length_cons] at hlen
            simp only [findallMacF, hm]
            congr 1
            exact ih f1 f2 after (by omega) (by omega) (by omega)
          | none =>
            simp only [findallMacF, hm]
            exact ih f1 f2 rest (by omega) (by omega) (by omega)

/-- One unfolding step of the `findall` scan. -/
theorem findallMac_eq (s : List Char) :
    findallMac s = (match matchMac17 s with
      | some (m, after) => m :: findallMac after
      | none =>
        match s with
        | [] => []
        | _ :: rest => findallMac rest) := by
  cases s with
  | nil => rfl
  | cons c rest =>
    show findallMacF (rest.length + 1) (c :: rest) = _
    cases hm : matchMac17 (c :: rest) with
    | some p =>
      obtain ⟨m, after⟩ := p
      have hlen := matchMac17_some (c :: rest) m after hm
      simp only [List.length_cons] at hlen
      simp only [findallMacF, hm]
      congr 1
      exact findallMacF_fuel rest.length rest.length after.length after (by omega) (by omega)
        (by omega)
    | none =>
      simp only [findallMacF, hm]
      rfl

set_option maxRecDepth 40000 in
/-- C6 counterexample: the exemplar line's MAC field is
`aa:bb:cc:dd:ee:ff:ff:ee:dd:cc:bb:aa:08:00`; the claim makes `src_mac` its
bytes 7-12 (`ff:ee:dd:cc:bb:aa`) and `dst_mac` bytes 1-6 — but the parser
assigns `src_mac` the FIRST regex match (bytes 1-6) and `dst_mac` the second
(bytes 7-12): the assignments are swapped relative to the claim. -/
theorem mac_split_counterexample :
    (parseLine envTriv exLine).map (fun e => (e.src_mac, e.dst_mac)) =
      .ok (some "aa:bb:cc:dd:ee:ff", some "ff:ee:dd:cc:bb:aa") ∧
    (some "aa:bb:cc:dd:ee:ff" : Option String) ≠ some "ff:ee:dd:cc:bb:aa" :=
  ⟨rfl, by decide⟩

/-- C6 (amended): for every well-formed 14-byte colon-joined MAC field, the
parser's `MacAddress.from_logline` yields bytes 1-6 as the first component
(assigned to `src_mac`) and bytes 7-12 as the second (assigned to `dst_mac`);
a field the regex cannot split into exactly two MACs still rejects the line. -/
theorem mac_split_amended (c1 c2 c3 c4 c5 c6 c7 c8 c9 c10 c11 c12 c13 c14 c15 c16 c17 c18 c19
    c20 c21 c22 c23 c24 c25 c26 c27 c28 : Char)
    (h : ([c1, c2, c3, c4, c5, c6, c7, c8, c9, c10, c11, c12, c13, c14, c15, c16, c17, c18, c19,
        c20, c21, c22, c23, c24, c25, c26, c27, c28].all isHexDigit) = true) :
    from_logline
      [c1, c2, ':', c3, c4, ':', c5, c6, ':', c7, c8, ':', c9, c10, ':', c11, c12, ':',
       c13, c14, ':', c15, c16, ':', c17, c18, ':', c19, c20, ':', c21, c22, ':', c23, c24, ':',
       c25, c26, ':', c27, c28] =
      .ok ([c1, c2, ':', c3, c4, ':', c5, c6, ':', c7, c8, ':', c9, c10, ':', c11, c12],
           [c13, c14, ':', c15, c16, ':', c17, c18, ':', c19, c20, ':', c21, c22, ':', c23, c24]) := by
  simp only [List.all_cons, List.all_nil, Bool.and_eq_true, Bool.and_true] at h
  obtain ⟨h1, h2, h3, h4, h5, h6, h7, h8, h9, h10, h11, h12, h13, h14, h15, h16, h17, h18, h19,
    h20, h21, h22, h23, h24, h25, h26, h27, h28⟩ := h
  have m1 : matchMac17
      [c1, c2, ':', c3, c4, ':', c5, c6, ':', c7, c8, ':', c9, c10, ':', c11, c12, ':',
       c13, c14, ':', c15, c16, ':', c17, c18, ':', c19, c20, ':', c21, c22, ':', c23, c24, ':',
       c25, c26, ':', c27, c28] =
      some ([c1, c2, ':', c3, c4, ':', c5, c6, ':', c7, c8, ':', c9, c10, ':', c11, c12],
            [':', c13, c14, ':', c15, c16, ':', c17, c18, ':', c19, c20, ':', c21, c22, ':',
             c23, c24, ':', c25, c26, ':', c27, c28]) := by
    simp [matchMac17, h1, h2, h3, h4, h5, h6, h7, h8, h9, h10, h11, h12]
  have m2 : matchMac17
      [c13, c14, ':', c15, c16, ':', c17, c18, ':', c19, c20, ':', c21, c22, ':', c23, c24, ':',
       c25, c26, ':', c27, c28] =
      some ([c13, c14, ':', c15, c16, ':', c17, c18, ':', c19, c20, ':', c21, c22, ':', c23, c24],
            [':', c25, c26, ':', c27, c28]) := by
    simp [matchMac17, h13, h14, h15, h16, h17, h18, h19, h20, h21, h22, h23, h24]
  have mcolon1 : matchMac17
      [':', c13, c14, ':', c15, c16, ':', c17, c18, ':', c19, c20, ':', c21, c22, ':',
       c23, c24, ':', c25, c26, ':', c27, c28] = none := rfl
  have eF : findallMac
      [c1, c2, ':', c3, c4, ':', c5, c6, ':', c7, c8, ':', c9, c10, ':', c11, c12, ':',
       c13, c14, ':', c15, c16, ':', c17, c18, ':', c19, c20, ':', c21, c22, ':', c23, c24, ':',
       c25, c26, ':', c27, c28] =
      [c1, c2, ':', c3, c4, ':', c5, c6, ':', c7, c8, ':', c9, c10, ':', c11, c12] ::
        findallMac [':', c13, c14, ':', c15, c16, ':', c17, c18, ':', c19, c20, ':', c21, c22,
          ':', c23, c24, ':', c25, c26, ':', c27, c28] := by
    rw [findallMac_eq, m1]
  have eR1 : findallMac
      [':', c13, c14, ':', c15, c16, ':', c17, c18, ':', c19, c20, ':', c21, c22, ':',
       c23, c24, ':', c25, c26, ':', c27, c28] =
      findallMac [c13, c14, ':', c15, c16, ':', c17, c18, ':', c19, c20, ':', c21, c22, ':',
        c23, c24, ':', c25, c26, ':', c27, c28] := by
    rw [findallMac_eq, mcolon1]
  have eR2 : findallMac
      [c13, c14, ':', c15, c16, ':', c17, c18, ':', c19, c20, ':', c21, c22, ':',
       c23, c24, ':', c25, c26, ':', c27, c28] =
      [c13, c14, ':', c15, c16, ':', c17, c18, ':', c19, c20, ':', c21, c22, ':', c23, c24] ::
        findallMac [':', c25, c26, ':', c27, c28] := by
    rw [findallMac_eq, m2]
  have eR3 : findallMac [':', c25, c26, ':', c27, c28] = [] := rfl
  unfold from_logline
  rw [eF, eR1, eR2, eR3]

theorem mac_split_amended_witness :
    from_logline "aa:bb:cc:dd:ee:ff:11:22:33:44:55:66:08:00".toList =
      .ok ("aa:bb:cc:dd:ee:ff".toList, "11:22:33:44:55:66".toList) :=
  mac_split_amended 'a' 'a' 'b' 'b' 'c' 'c' 'd' 'd' 'e' 'e' 'f' 'f' '1' '1' '2' '2' '3' '3'
    '4' '4' '5' '5' '6' '6' '0' '8' '0' '0' (by decide)

end Dumpster
